import Mathlib

/-!
Verification of the DataGator aggregator service (src/services/py/main.py,
src/services/py/database.py) against its natural-language specification.

The SQLite-backed tables are modelled as Lean lists in insertion (rowid)
order; `datetime` values are integers; SQL `SELECT ... WHERE` is list
filtering, `ORDER BY created_at` / `ORDER BY scheduled_at` is a stable sort
(`List.insertionSort`), and `scalar_one_or_none` plus an ORM in-place update
is "find first matching row / rewrite first matching row".  Fallible
operations (`raise ValueError`, returning `None`) are `Option`-valued.
Monetary `float` fields hold exact values in the scenarios the spec uses,
so they are modelled as `Rat`.  Free-form `Dict` payloads that no claim
inspects are modelled as opaque strings.
-/

namespace DataGator

/-- `datetime` timestamps, modelled as integers (e.g. microseconds since an
epoch); `datetime.utcnow()` becomes an explicit `now` argument at every
call site that reads the clock. -/
abbrev Timestamp := Int

/-- database.py `TaskStatus`. -/
inductive TaskStatus where
  | pending
  | processing
  | completed
  | failed
deriving DecidableEq

/-- database.py `TaskType`. -/
inductive TaskType where
  | send_to_crm
  | send_to_yandex_direct
  | retry_failed
deriving DecidableEq

/-- database.py `EventType`. -/
inductive EventType where
  | lead_created
  | lead_sent_to_crm
  | payment_registered
  | yandex_direct_conversion
deriving DecidableEq

/-- The handler-specific `payload` dict of a `Task`
(keys read by the worker: `lead_id`, `crm_config`, `payment_amount`). -/
structure TaskPayload where
  lead_id : Option String
  crm_config : Option String
  payment_amount : Option Rat
deriving DecidableEq

/-- The result dict a task handler returns; its internal structure is never
inspected by the queue logic, so it is kept opaque. -/
abbrev TaskResult := String

/-- database.py `Task` row (the surrogate `id` primary key is the list
position). -/
structure Task where
  task_id : String
  task_type : TaskType
  payload : TaskPayload
  status : TaskStatus
  attempts : Int
  max_attempts : Int
  error_message : Option String
  result : Option TaskResult
  scheduled_at : Timestamp
  started_at : Option Timestamp
  completed_at : Option Timestamp
deriving DecidableEq

/-- The `task` table, in insertion (rowid) order. -/
abbrev TaskStore := List Task

/-- database.py `Event` row. -/
structure Event where
  event_id : String
  aggregate_id : String
  event_type : EventType
  payload : String
  version : Int
  created_at : Timestamp
  metadata : String
deriving DecidableEq

/-- The `event` table, in insertion (rowid) order. -/
abbrev EventStore := List Event

/-- The `payment_data` dict of a webhook (`.get` on absent keys yields
`none`). -/
structure PaymentData where
  amount : Option Rat
  payment_date : Option Timestamp
deriving DecidableEq

/-- database.py `Lead` row. -/
structure Lead where
  lead_id : String
  campaign_id : Option String
  landing_id : String
  form_data : String
  status : String
  crm_id : Option String
  payment_amount : Option Rat
  payment_date : Option Timestamp
  created_at : Timestamp
  updated_at : Timestamp
deriving DecidableEq

/-- The `lead` table, in insertion (rowid) order. -/
abbrev LeadStore := List Lead

/-- database.py `CampaignStat` row. -/
structure CampaignStat where
  campaign_id : String
  total_leads : Int
  total_payments : Int
  total_revenue : Rat
  last_lead_at : Option Timestamp
  last_payment_at : Option Timestamp
  created_at : Timestamp
  updated_at : Timestamp
deriving DecidableEq

/-- The `campaignstat` table, in insertion (rowid) order. -/
abbrev StatStore := List CampaignStat

/-- Rewrite the first list element satisfying `p` by `f` (an ORM fetch of a
unique-keyed row followed by in-place mutation and commit). -/
def update_first (p : α → Bool) (f : α → α) : List α → List α
  | [] => []
  | x :: xs => if p x then f x :: xs else x :: update_first p f xs

/-- Python truthiness of an `Optional[str]` (`None` and `""` are falsy). -/
def str_truthy : Option String → Bool
  | none => false
  | some s => !(s == "")

/-! ## EventStore (main.py lines 83-140) -/

namespace EventStore

/-- `EventStore.save_event`: build the new `Event` row (fresh `event_id`
supplied by the caller in place of `uuid.uuid4()`, `version` defaulting
to 1, `created_at` stamped with the current clock), insert it, return it. -/
def save_event (store : EventStore) (event_id aggregate_id : String)
    (event_type : EventType) (payload : String) (metadata : Option String)
    (now : Timestamp) : Event × EventStore :=
  let event : Event :=
    { event_id := event_id
      aggregate_id := aggregate_id
      event_type := event_type
      payload := payload
      version := 1
      created_at := now
      metadata := metadata.getD "" }
  (event, store ++ [event])

/-- The `ORDER BY created_at` relation. -/
def created_le (a b : Event) : Prop := a.created_at ≤ b.created_at

instance : DecidableRel created_le := fun a b =>
  inferInstanceAs (Decidable (a.created_at ≤ b.created_at))

instance : IsTotal Event created_le := ⟨fun a b => Int.le_total a.created_at b.created_at⟩

instance : IsTrans Event created_le := ⟨fun _ _ _ hab hbc => le_trans hab hbc⟩

/-- `EventStore.get_events_by_aggregate`: `SELECT` the aggregate's events
ordered by `created_at` ascending (stable sort, ties in rowid order). -/
def get_events_by_aggregate (store : EventStore) (aggregate_id : String) :
    List Event :=
  (store.filter (fun e => e.aggregate_id == aggregate_id)).insertionSort created_le

end EventStore

/-! ## TaskQueue (main.py lines 142-216) -/

namespace TaskQueue

/-- `TaskQueue.create_task`: new row with `status = pending`, `attempts = 0`,
`max_attempts = 3`, `scheduled_at = now + delay_seconds`. -/
def create_task (store : TaskStore) (task_id : String) (task_type : TaskType)
    (payload : TaskPayload) (delay_seconds : Int) (now : Timestamp) :
    Task × TaskStore :=
  let task : Task :=
    { task_id := task_id
      task_type := task_type
      payload := payload
      status := TaskStatus.pending
      attempts := 0
      max_attempts := 3
      error_message := none
      result := none
      scheduled_at := now + delay_seconds
      started_at := none
      completed_at := none }
  (task, store ++ [task])

/-- `TaskQueue.get_task_by_id`: `scalar_one_or_none` on the unique
`task_id` key - the first matching row, if any. -/
def get_task_by_id (store : TaskStore) (task_id : String) : Option Task :=
  store.find? (fun t => t.task_id == task_id)

/-- The eligibility filter of `get_pending_tasks`:
`status == PENDING and scheduled_at <= utcnow()`. -/
def is_ready (now : Timestamp) (t : Task) : Bool :=
  t.status == TaskStatus.pending && decide (t.scheduled_at ≤ now)

/-- The `ORDER BY scheduled_at` relation. -/
def sched_le (a b : Task) : Prop := a.scheduled_at ≤ b.scheduled_at

instance : DecidableRel sched_le := fun a b =>
  inferInstanceAs (Decidable (a.scheduled_at ≤ b.scheduled_at))

instance : IsTotal Task sched_le := ⟨fun a b => Int.le_total a.scheduled_at b.scheduled_at⟩

instance : IsTrans Task sched_le := ⟨fun _ _ _ hab hbc => le_trans hab hbc⟩

/-- `TaskQueue.get_pending_tasks`: `SELECT` the due pending tasks ordered by
`scheduled_at` (stable sort, ties in rowid order), limited to `limit` rows.
The function body runs a query and nothing else (no `session.add`, no
`commit`), so the table it leaves behind is the table it was given. -/
def get_pending_tasks (store : TaskStore) (now : Timestamp) (limit : Nat) :
    List Task × TaskStore :=
  ((((store.filter (is_ready now)).insertionSort sched_le).take limit), store)

/-- The field mutations `update_task_status` performs on the fetched row:
`status` overwritten, `attempts += 1`, then the per-status timestamp /
error / result assignments. -/
def apply_status_update (t : Task) (status : TaskStatus)
    (error_message : Option String) (result : Option TaskResult)
    (now : Timestamp) : Task :=
  let t1 : Task := { t with status := status, attempts := t.attempts + 1 }
  match status with
  | TaskStatus.processing => { t1 with started_at := some now }
  | TaskStatus.completed => { t1 with completed_at := some now, result := result }
  | TaskStatus.failed => { t1 with error_message := error_message }
  | TaskStatus.pending => t1

/-- `TaskQueue.update_task_status`: fetch by `task_id` (`none` models the
raised `ValueError` when the task is unknown), mutate the row in place,
commit. -/
def update_task_status (store : TaskStore) (task_id : String)
    (status : TaskStatus) (error_message : Option String)
    (result : Option TaskResult) (now : Timestamp) : Option TaskStore :=
  match get_task_by_id store task_id with
  | none => none
  | some _ => some (update_first (fun t => t.task_id == task_id)
      (fun t => apply_status_update t status error_message result now) store)

end TaskQueue

/-! ## Worker loop (main.py `background_task_processor`, lines 604-670) -/

/-- The handler dispatch inside the loop body: `result = None`, then
`process_crm_task` / `process_yandex_direct_task` by `task_type`.  The two
handlers call external HTTP services and touch only the lead/event tables,
so they enter the model as oracle functions producing either a result dict
or a raised exception message. -/
def dispatch (crm yandex : Task → Except String TaskResult) (t : Task) :
    Except String (Option TaskResult) :=
  match t.task_type with
  | TaskType.send_to_crm => (crm t).map some
  | TaskType.send_to_yandex_direct => (yandex t).map some
  | TaskType.retry_failed => Except.ok none

/-- The `except Exception` branch of the loop body: re-read the (identity
mapped) task object, compare `task.attempts >= task.max_attempts - 1`, and
transition to `FAILED` with the error recorded, or back to `PENDING`.
`none` models the exception escaping the batch (unknown `task_id`). -/
def retry_or_fail (store : TaskStore) (t0 : Task) (e : String)
    (now : Timestamp) : Option TaskStore :=
  match TaskQueue.get_task_by_id store t0.task_id with
  | none => none
  | some cur =>
    if cur.max_attempts - 1 ≤ cur.attempts then
      TaskQueue.update_task_status store t0.task_id TaskStatus.failed (some e) none now
    else
      TaskQueue.update_task_status store t0.task_id TaskStatus.pending none none now

/-- One iteration of the worker's `for task in tasks` body for a single
claimed task: transition to `PROCESSING`, dispatch the handler, and on
success transition to `COMPLETED` with the handler result; any raised
exception falls into `retry_or_fail`. -/
def process_one (crm yandex : Task → Except String TaskResult)
    (now : Timestamp) (store : TaskStore) (t0 : Task) : Option TaskStore :=
  match TaskQueue.update_task_status store t0.task_id TaskStatus.processing none none now with
  | none => retry_or_fail store t0 "task not found" now
  | some s1 =>
    match dispatch crm yandex t0 with
    | Except.error e => retry_or_fail s1 t0 e now
    | Except.ok res =>
      match TaskQueue.update_task_status s1 t0.task_id TaskStatus.completed none res now with
      | none => retry_or_fail s1 t0 "task not found" now
      | some s2 => some s2

/-- One poll cycle of `background_task_processor`: claim up to 5 ready
tasks, then run the loop body on each claimed task in order. -/
def worker_iteration (crm yandex : Task → Except String TaskResult)
    (now : Timestamp) (store : TaskStore) : Option TaskStore :=
  let claimed := (TaskQueue.get_pending_tasks store now 5).1
  claimed.foldlM (fun s t => process_one crm yandex now s t)
    (TaskQueue.get_pending_tasks store now 5).2

/-! ## LeadService (main.py lines 218-281) -/

namespace LeadService

/-- The field mutations `update_lead_status` performs on the fetched lead:
`status` and `updated_at` always; `crm_id` when the argument is truthy;
`payment_amount` / `payment_date` when payment data is supplied and the new
status is `"paid"` (the date defaulting to the current clock via
`payment_data.get("payment_date") or datetime.utcnow()`). -/
def apply_lead_update (lead : Lead) (status : String) (crm_id : Option String)
    (payment_data : Option PaymentData) (now : Timestamp) : Lead :=
  let l1 : Lead := { lead with status := status, updated_at := now }
  let l2 : Lead := if str_truthy crm_id then { l1 with crm_id := crm_id } else l1
  match payment_data with
  | none => l2
  | some pd =>
    if status == "paid" then
      { l2 with payment_amount := pd.amount
                payment_date := some (pd.payment_date.getD now) }
    else l2

/-- `LeadService.update_lead_status`: fetch by `lead_id`; when absent return
`None` having touched nothing; otherwise mutate the row in place, commit,
and return the updated lead. -/
def update_lead_status (store : LeadStore) (lead_id : String) (status : String)
    (crm_id : Option String) (payment_data : Option PaymentData)
    (now : Timestamp) : Option Lead × LeadStore :=
  match store.find? (fun l => l.lead_id == lead_id) with
  | none => (none, store)
  | some lead =>
    (some (apply_lead_update lead status crm_id payment_data now),
     update_first (fun l => l.lead_id == lead_id)
       (fun l => apply_lead_update l status crm_id payment_data now) store)

end LeadService

/-! ## CampaignService (main.py lines 283-359) -/

namespace CampaignService

/-- How many rows of the stat table carry a given `campaign_id`. -/
def count_rows (store : StatStore) (campaign_id : String) : Nat :=
  (store.filter (fun s => s.campaign_id == campaign_id)).length

/-- `CampaignService.increment_lead_count`: fetch the campaign's row; when
absent insert a fresh row carrying the single increment (`total_leads = 1`,
other counters at their column defaults), otherwise read-modify-write the
existing row. -/
def increment_lead_count (store : StatStore) (campaign_id : String)
    (now : Timestamp) : CampaignStat × StatStore :=
  match store.find? (fun s => s.campaign_id == campaign_id) with
  | none =>
    let stat : CampaignStat :=
      { campaign_id := campaign_id
        total_leads := 1
        total_payments := 0
        total_revenue := 0
        last_lead_at := some now
        last_payment_at := none
        created_at := now
        updated_at := now }
    (stat, store ++ [stat])
  | some stat =>
    let stat1 : CampaignStat :=
      { stat with total_leads := stat.total_leads + 1
                  last_lead_at := some now
                  updated_at := now }
    (stat1, update_first (fun s => s.campaign_id == campaign_id)
      (fun s => { s with total_leads := s.total_leads + 1
                         last_lead_at := some now
                         updated_at := now }) store)

/-- `CampaignService.increment_payment_count`: as above but for the payment
counters (`total_payments`, `total_revenue = old + amount`). -/
def increment_payment_count (store : StatStore) (campaign_id : String)
    (amount : Rat) (now : Timestamp) : CampaignStat × StatStore :=
  match store.find? (fun s => s.campaign_id == campaign_id) with
  | none =>
    let stat : CampaignStat :=
      { campaign_id := campaign_id
        total_leads := 0
        total_payments := 1
        total_revenue := amount
        last_lead_at := none
        last_payment_at := some now
        created_at := now
        updated_at := now }
    (stat, store ++ [stat])
  | some stat =>
    let stat1 : CampaignStat :=
      { stat with total_payments := stat.total_payments + 1
                  total_revenue := stat.total_revenue + amount
                  last_payment_at := some now
                  updated_at := now }
    (stat1, update_first (fun s => s.campaign_id == campaign_id)
      (fun s => { s with total_payments := s.total_payments + 1
                         total_revenue := s.total_revenue + amount
                         last_payment_at := some now
                         updated_at := now }) store)

end CampaignService

/-! ## Concrete fixtures used in closed theorems -/

/-- A CRM handler oracle that always raises (every send attempt fails). -/
def crmFail : Task → Except String TaskResult := fun _ => Except.error "boom"

/-- A Yandex.Direct handler oracle; never reached in the runs that use it. -/
def yandexIdle : Task → Except String TaskResult := fun _ => Except.error "unused"

/-- An empty task payload dict. -/
def emptyPayload : TaskPayload :=
  { lead_id := none, crm_config := none, payment_amount := none }

/-- A fresh `send_to_crm` task exactly as `create_task` builds it at clock 0
with no delay: `status = pending`, `attempts = 0`, `max_attempts = 3`. -/
def freshCrmTask (task_id : String) : Task :=
  (TaskQueue.create_task [] task_id TaskType.send_to_crm emptyPayload 0 0).1

/-- A task already in the `completed` terminal state. -/
def doneTask : Task :=
  { freshCrmTask "done" with
    status := TaskStatus.completed
    attempts := 2
    completed_at := some 3 }

/-- A task already in the `failed` terminal state. -/
def failedTask : Task :=
  { freshCrmTask "lost" with
    status := TaskStatus.failed
    attempts := 4
    error_message := some "gone" }

/-- A fresh `retry_failed` task (the worker has no handler for this type). -/
def retryTask : Task :=
  (TaskQueue.create_task [] "r1" TaskType.retry_failed emptyPayload 0 0).1

/-- Three tasks scheduled at now-1s, now-2s and now+10s around clock 1000
(spec scenario 2). -/
def taskMinus1 : Task := { freshCrmTask "m1" with scheduled_at := 999 }

/-- See `taskMinus1`. -/
def taskMinus2 : Task := { freshCrmTask "m2" with scheduled_at := 998 }

/-- See `taskMinus1`. -/
def taskPlus10 : Task := { freshCrmTask "p10" with scheduled_at := 1010 }

/-- An event-append request: the arguments of one `save_event` call together
with the fresh uuid and the clock reading of that call. -/
structure AppendRequest where
  event_id : String
  aggregate_id : String
  event_type : EventType
  payload : String
  metadata : Option String
  now : Timestamp
deriving DecidableEq

/-- The row a single `save_event` call inserts for a request. -/
def mk_event (r : AppendRequest) : Event :=
  (EventStore.save_event [] r.event_id r.aggregate_id r.event_type r.payload
    r.metadata r.now).1

/-- Run a sequence of `save_event` calls against a store. -/
def append_all (store : EventStore) (rs : List AppendRequest) : EventStore :=
  rs.foldl (fun s r =>
    (EventStore.save_event s r.event_id r.aggregate_id r.event_type r.payload
      r.metadata r.now).2) store

/-- Concrete append requests for two aggregates. -/
def reqA1 : AppendRequest :=
  { event_id := "e1", aggregate_id := "lead_abc1",
    event_type := EventType.lead_created, payload := "p1",
    metadata := none, now := 10 }

/-- See `reqA1`. -/
def reqB1 : AppendRequest :=
  { event_id := "e2", aggregate_id := "lead_zzz9",
    event_type := EventType.lead_created, payload := "p2",
    metadata := none, now := 11 }

/-- See `reqA1`. -/
def reqA2 : AppendRequest :=
  { event_id := "e3", aggregate_id := "lead_abc1",
    event_type := EventType.payment_registered, payload := "p3",
    metadata := none, now := 12 }

/-- A stored lead snapshot in status `"new"`. -/
def leadNew : Lead :=
  { lead_id := "lead_1"
    campaign_id := some "camp1"
    landing_id := "default"
    form_data := "f"
    status := "new"
    crm_id := none
    payment_amount := none
    payment_date := none
    created_at := 1
    updated_at := 1 }

/-- The row `increment_lead_count` inserts for an unseen campaign. -/
def fresh_lead_stat (campaign_id : String) (now : Timestamp) : CampaignStat :=
  { campaign_id := campaign_id
    total_leads := 1
    total_payments := 0
    total_revenue := 0
    last_lead_at := some now
    last_payment_at := none
    created_at := now
    updated_at := now }

/-- The row `increment_payment_count` inserts for an unseen campaign. -/
def fresh_payment_stat (campaign_id : String) (amount : Rat)
    (now : Timestamp) : CampaignStat :=
  { campaign_id := campaign_id
    total_leads := 0
    total_payments := 1
    total_revenue := amount
    last_lead_at := none
    last_payment_at := some now
    created_at := now
    updated_at := now }

/-- The supplied payment data of spec scenario 5. -/
def paymentTwoHundred : PaymentData := { amount := some 200, payment_date := none }

/-- The arguments of one `update_task_status` call (besides the task id). -/
structure UpdateSpec where
  status : TaskStatus
  error_message : Option String
  result : Option TaskResult
  now : Timestamp
deriving DecidableEq

/-- A sequence of `update_task_status` calls against one task id. -/
def run_updates (store : TaskStore) (task_id : String)
    (specs : List UpdateSpec) : Option TaskStore :=
  specs.foldlM
    (fun s sp => TaskQueue.update_task_status s task_id sp.status
      sp.error_message sp.result sp.now) store

/-! # Helper lemmas -/

theorem find?_update_first_self {α : Type} (p : α → Bool) (f : α → α)
    (hf : ∀ x, p (f x) = p x) (l : List α) :
    (update_first p f l).find? p = (l.find? p).map f := by
  induction l with
  | nil => rfl
  | cons x xs ih =>
    cases hx : p x
    · simp [update_first, hx, List.find?_cons, ih]
    · simp [update_first, hx, List.find?_cons, hf x]

theorem find?_update_first_other {α : Type} (p q : α → Bool) (f : α → α)
    (hpq : ∀ x, p x = true → q x = false) (hqf : ∀ x, q (f x) = q x)
    (l : List α) : (update_first p f l).find? q = l.find? q := by
  induction l with
  | nil => rfl
  | cons x xs ih =>
    cases hx : p x
    · simp [update_first, hx, List.find?_cons, ih]
    · have hq : q x = false := hpq x hx
      simp [update_first, hx, List.find?_cons, hqf x, hq]

theorem map_update_first {α β : Type} (p : α → Bool) (f : α → α) (g : α → β)
    (hg : ∀ x, g (f x) = g x) (l : List α) :
    (update_first p f l).map g = l.map g := by
  induction l with
  | nil => rfl
  | cons x xs ih =>
    cases hx : p x
    · simp [update_first, hx, ih]
    · simp [update_first, hx, hg x]

theorem mem_update_first_of_find? {α : Type} (p : α → Bool) (f : α → α)
    (l : List α) (x : α) (h : l.find? p = some x) :
    f x ∈ update_first p f l := by
  induction l with
  | nil => simp at h
  | cons y ys ih =>
    cases hy : p y
    · rw [List.find?_cons, hy] at h
      have hmem := ih h
      simp only [update_first, hy, Bool.false_eq_true, if_false]
      exact List.mem_cons_of_mem y hmem
    · rw [List.find?_cons, hy] at h
      simp only [Option.some.injEq] at h
      subst h
      simp [update_first, hy]

namespace TaskQueue

theorem apply_status_update_task_id (t : Task) (st : TaskStatus)
    (e : Option String) (r : Option TaskResult) (now : Timestamp) :
    (apply_status_update t st e r now).task_id = t.task_id := by
  cases st <;> rfl

theorem apply_status_update_attempts (t : Task) (st : TaskStatus)
    (e : Option String) (r : Option TaskResult) (now : Timestamp) :
    (apply_status_update t st e r now).attempts = t.attempts + 1 := by
  cases st <;> rfl

theorem apply_status_update_max_attempts (t : Task) (st : TaskStatus)
    (e : Option String) (r : Option TaskResult) (now : Timestamp) :
    (apply_status_update t st e r now).max_attempts = t.max_attempts := by
  cases st <;> rfl

theorem get_task_by_id_isSome_of_mem_ids (s : TaskStore) (tid : String)
    (h : tid ∈ s.map Task.task_id) : ∃ w, get_task_by_id s tid = some w := by
  obtain ⟨x, hx, hxid⟩ := List.mem_map.mp h
  have hs : (s.find? (fun t => t.task_id == tid)).isSome := by
    rw [List.find?_isSome]
    exact ⟨x, hx, by simp [hxid]⟩
  exact Option.isSome_iff_exists.mp hs

/-- Master lemma for `update_task_status` on a present task: the update
succeeds, the stored row becomes `apply_status_update` of the old row, the
set of task ids is unchanged, and every other id maps to the same row. -/
theorem update_task_status_spec (s : TaskStore) (tid : String) (t : Task)
    (st : TaskStatus) (e : Option String) (r : Option TaskResult)
    (now : Timestamp) (h : get_task_by_id s tid = some t) :
    ∃ s1, update_task_status s tid st e r now = some s1 ∧
      get_task_by_id s1 tid = some (apply_status_update t st e r now) ∧
      s1.map Task.task_id = s.map Task.task_id ∧
      ∀ tid2, tid2 ≠ tid → get_task_by_id s1 tid2 = get_task_by_id s tid2 := by
  have hf : ∀ x : Task,
      ((apply_status_update x st e r now).task_id == tid) = (x.task_id == tid) := by
    intro x; rw [apply_status_update_task_id]
  refine ⟨update_first (fun u => u.task_id == tid)
    (fun u => apply_status_update u st e r now) s, ?_, ?_, ?_, ?_⟩
  · rw [update_task_status, h]
  · unfold get_task_by_id at h ⊢
    rw [find?_update_first_self _ _ hf, h, Option.map_some']
  · exact map_update_first _ _ _ (fun x => apply_status_update_task_id x st e r now) s
  · intro tid2 h2
    unfold get_task_by_id
    refine find?_update_first_other _ _ _ ?_ ?_ s
    · intro x hx
      have : x.task_id = tid := eq_of_beq hx
      rw [this]
      exact beq_eq_false_iff_ne.mpr (fun hc => h2 hc.symm)
    · intro x; rw [apply_status_update_task_id]

end TaskQueue

/-- Both dispatch outcomes: on a present task the loop body always commits
a batch of (one or two) `update_task_status` calls and succeeds; the task
ids of the store are unchanged and rows of other ids are untouched. -/
theorem process_one_ok_spec (crm yandex : Task → Except String TaskResult)
    (now : Timestamp) (s : TaskStore) (t0 t : Task) (res : Option TaskResult)
    (ht : TaskQueue.get_task_by_id s t0.task_id = some t)
    (hd : dispatch crm yandex t0 = Except.ok res) :
    ∃ s2, process_one crm yandex now s t0 = some s2 ∧
      TaskQueue.get_task_by_id s2 t0.task_id =
        some (TaskQueue.apply_status_update
          (TaskQueue.apply_status_update t TaskStatus.processing none none now)
          TaskStatus.completed none res now) ∧
      s2.map Task.task_id = s.map Task.task_id ∧
      ∀ tid2, tid2 ≠ t0.task_id →
        TaskQueue.get_task_by_id s2 tid2 = TaskQueue.get_task_by_id s tid2 := by
  obtain ⟨s1, h1, h1self, h1ids, h1other⟩ :=
    TaskQueue.update_task_status_spec s t0.task_id t TaskStatus.processing
      none none now ht
  obtain ⟨s2, h2, h2self, h2ids, h2other⟩ :=
    TaskQueue.update_task_status_spec s1 t0.task_id _ TaskStatus.completed
      none res now h1self
  refine ⟨s2, ?_, h2self, h2ids.trans h1ids, ?_⟩
  · simp only [process_one, h1, hd]
    rw [h2]
  · intro tid2 hne
    rw [h2other tid2 hne, h1other tid2 hne]

/-- On a present task whose handler raises, the loop body transitions to
`processing` and then, according to the `attempts >= max_attempts - 1`
check made against the already-incremented counter, either to `failed`
with the error recorded or back to `pending`. -/
theorem process_one_error_spec (crm yandex : Task → Except String TaskResult)
    (now : Timestamp) (s : TaskStore) (t0 t : Task) (e : String)
    (ht : TaskQueue.get_task_by_id s t0.task_id = some t)
    (hd : dispatch crm yandex t0 = Except.error e) :
    ∃ s2, process_one crm yandex now s t0 = some s2 ∧
      TaskQueue.get_task_by_id s2 t0.task_id =
        some (if t.max_attempts - 1 ≤ t.attempts + 1 then
          TaskQueue.apply_status_update
            (TaskQueue.apply_status_update t TaskStatus.processing none none now)
            TaskStatus.failed (some e) none now
        else
          TaskQueue.apply_status_update
            (TaskQueue.apply_status_update t TaskStatus.processing none none now)
            TaskStatus.pending none none now) ∧
      s2.map Task.task_id = s.map Task.task_id ∧
      ∀ tid2, tid2 ≠ t0.task_id →
        TaskQueue.get_task_by_id s2 tid2 = TaskQueue.get_task_by_id s tid2 := by
  obtain ⟨s1, h1, h1self, h1ids, h1other⟩ :=
    TaskQueue.update_task_status_spec s t0.task_id t TaskStatus.processing
      none none now ht
  by_cases hle : t.max_attempts - 1 ≤ t.attempts + 1
  · obtain ⟨s2, h2, h2self, h2ids, h2other⟩ :=
      TaskQueue.update_task_status_spec s1 t0.task_id _ TaskStatus.failed
        (some e) none now h1self
    refine ⟨s2, ?_, ?_, h2ids.trans h1ids, ?_⟩
    · simp only [process_one, h1, hd, retry_or_fail, h1self,
        TaskQueue.apply_status_update_max_attempts,
        TaskQueue.apply_status_update_attempts]
      rw [if_pos hle]
      exact h2
    · rw [h2self, if_pos hle]
    · intro tid2 hne
      rw [h2other tid2 hne, h1other tid2 hne]
  · obtain ⟨s2, h2, h2self, h2ids, h2other⟩ :=
      TaskQueue.update_task_status_spec s1 t0.task_id _ TaskStatus.pending
        none none now h1self
    refine ⟨s2, ?_, ?_, h2ids.trans h1ids, ?_⟩
    · simp only [process_one, h1, hd, retry_or_fail, h1self,
        TaskQueue.apply_status_update_max_attempts,
        TaskQueue.apply_status_update_attempts]
      rw [if_neg hle]
      exact h2
    · rw [h2self, if_neg hle]
    · intro tid2 hne
      rw [h2other tid2 hne, h1other tid2 hne]

/-- Frame part of the loop body: processing a present task never touches
rows with other task ids and preserves the id column. -/
theorem process_one_frame (crm yandex : Task → Except String TaskResult)
    (now : Timestamp) (s : TaskStore) (t0 : Task)
    (ht : ∃ t, TaskQueue.get_task_by_id s t0.task_id = some t) :
    ∃ s2, process_one crm yandex now s t0 = some s2 ∧
      s2.map Task.task_id = s.map Task.task_id ∧
      ∀ tid2, tid2 ≠ t0.task_id →
        TaskQueue.get_task_by_id s2 tid2 = TaskQueue.get_task_by_id s tid2 := by
  obtain ⟨t, ht⟩ := ht
  cases hd : dispatch crm yandex t0 with
  | ok res =>
    obtain ⟨s2, hrun, _, hids, hother⟩ :=
      process_one_ok_spec crm yandex now s t0 t res ht hd
    exact ⟨s2, hrun, hids, hother⟩
  | error e =>
    obtain ⟨s2, hrun, _, hids, hother⟩ :=
      process_one_error_spec crm yandex now s t0 t e ht hd
    exact ⟨s2, hrun, hids, hother⟩

/-- Folding the loop body over a batch of tasks whose ids are all present
and all different from `uid` succeeds and leaves the row of `uid` alone. -/
theorem foldlM_process_frame (crm yandex : Task → Except String TaskResult)
    (now : Timestamp) (uid : String) (claimed : List Task) :
    ∀ (s : TaskStore) (ids : List String), s.map Task.task_id = ids →
      (∀ t ∈ claimed, t.task_id ≠ uid ∧ t.task_id ∈ ids) →
      ∃ s1, claimed.foldlM (fun acc t => process_one crm yandex now acc t) s =
          some s1 ∧
        s1.map Task.task_id = ids ∧
        TaskQueue.get_task_by_id s1 uid = TaskQueue.get_task_by_id s uid := by
  induction claimed with
  | nil => exact fun s ids hids _ => ⟨s, by simp, hids, rfl⟩
  | cons t ts ih =>
    intro s ids hids hall
    have hturn := hall t (List.mem_cons_self t ts)
    have hpresent : ∃ w, TaskQueue.get_task_by_id s t.task_id = some w :=
      TaskQueue.get_task_by_id_isSome_of_mem_ids s t.task_id
        (by rw [hids]; exact hturn.2)
    obtain ⟨s2, hrun, hids2, hother⟩ :=
      process_one_frame crm yandex now s t hpresent
    obtain ⟨s1, hfold, hids1, huid⟩ := ih s2 ids (hids2.trans hids)
      (fun x hx => hall x (List.mem_cons_of_mem t hx))
    refine ⟨s1, ?_, hids1, huid.trans (hother uid (fun hc => hturn.1 hc.symm))⟩
    rw [List.foldlM_cons, hrun]
    simpa using hfold

/-- Tasks returned by the claim query are rows of the store with status
`pending` and `scheduled_at <= now`. -/
theorem mem_get_pending_tasks (store : TaskStore) (now : Timestamp)
    (limit : Nat) (t : Task)
    (ht : t ∈ (TaskQueue.get_pending_tasks store now limit).1) :
    t ∈ store ∧ t.status = TaskStatus.pending ∧ t.scheduled_at ≤ now := by
  have h1 : t ∈ (store.filter (TaskQueue.is_ready now)).insertionSort
      TaskQueue.sched_le := List.take_subset _ _ ht
  have h2 := (List.mem_insertionSort TaskQueue.sched_le).mp h1
  have h3 := List.mem_filter.mp h2
  have h4 := h3.2
  unfold TaskQueue.is_ready at h4
  have h5 := Bool.and_eq_true_iff.mp h4
  exact ⟨h3.1, eq_of_beq h5.1, of_decide_eq_true h5.2⟩

/-! # Claims -/

/-- C1, counterexample.  The claim says a `completed` or `failed` status is
terminal under `update_task_status`; but the operation overwrites the status
unconditionally: calling it with `PENDING` on the completed task `doneTask`
moves the stored status back to `pending` (and bumps `attempts`). -/
theorem c1_transition_changes_terminal_status :
    doneTask.status = TaskStatus.completed ∧
    (TaskQueue.update_task_status [doneTask] "done" TaskStatus.pending none
      none 99).map (fun s => s.map Task.status) = some [TaskStatus.pending] := by
  constructor
  · rfl
  · decide

/-- C1, amended: `update_task_status` itself enforces no terminality (see
the counterexample), but the worker loop only ever transitions tasks it
claimed while `pending`, so under any run of the loop body a task already
`completed` or `failed` keeps its exact row: one poll cycle succeeds and
leaves the terminal task unchanged (task ids assumed unique, as the
`task_id` column's unique index guarantees). -/
theorem c1_worker_loop_preserves_terminal_status
    (crm yandex : Task → Except String TaskResult) (now : Timestamp)
    (store : TaskStore) (uid : String) (u : Task)
    (hnodup : (store.map Task.task_id).Nodup)
    (hu : TaskQueue.get_task_by_id store uid = some u)
    (hterm : u.status = TaskStatus.completed ∨ u.status = TaskStatus.failed) :
    ∃ s1, worker_iteration crm yandex now store = some s1 ∧
      TaskQueue.get_task_by_id s1 uid = some u := by
  have hu' : store.find? (fun t => t.task_id == uid) = some u := hu
  have humem : u ∈ store := List.mem_of_find?_eq_some hu'
  have hbeq := List.find?_some hu'
  have huid : u.task_id = uid := eq_of_beq hbeq
  have hall : ∀ t ∈ (TaskQueue.get_pending_tasks store now 5).1,
      t.task_id ≠ uid ∧ t.task_id ∈ store.map Task.task_id := by
    intro t ht
    obtain ⟨htmem, htpend, -⟩ := mem_get_pending_tasks store now 5 t ht
    refine ⟨?_, List.mem_map_of_mem Task.task_id htmem⟩
    intro hc
    have : t = u := List.inj_on_of_nodup_map hnodup htmem humem
      (by rw [hc, huid])
    rcases hterm with hterm | hterm <;>
      rw [this, hterm] at htpend <;> exact absurd htpend (by simp)
  obtain ⟨s1, hrun, -, hkeep⟩ := foldlM_process_frame crm yandex now uid
    (TaskQueue.get_pending_tasks store now 5).1 store
    (store.map Task.task_id) rfl hall
  exact ⟨s1, hrun, by rw [hkeep, hu]⟩

/-- C1, witness: one poll cycle with an always-failing CRM handler over a
store holding the completed task `doneTask` and one due pending task leaves
`doneTask` untouched. -/
theorem c1_worker_loop_preserves_terminal_status_witness :
    ∃ s1, worker_iteration crmFail yandexIdle 10
        [doneTask, freshCrmTask "job"] = some s1 ∧
      TaskQueue.get_task_by_id s1 "done" = some doneTask :=
  c1_worker_loop_preserves_terminal_status crmFail yandexIdle 10
    [doneTask, freshCrmTask "job"] "done" doneTask (by decide) (by decide)
    (Or.inl (by decide))

/-- Every successful `update_task_status` call adds exactly one to the
stored `attempts` counter, so a run of k calls adds k. -/
theorem run_updates_attempts (task_id : String) (specs : List UpdateSpec) :
    ∀ (s : TaskStore) (t : Task),
      TaskQueue.get_task_by_id s task_id = some t →
      ∃ s1 t1, run_updates s task_id specs = some s1 ∧
        TaskQueue.get_task_by_id s1 task_id = some t1 ∧
        t1.attempts = t.attempts + specs.length := by
  induction specs with
  | nil =>
    intro s t h
    exact ⟨s, t, by simp [run_updates], h, by simp⟩
  | cons sp sps ih =>
    intro s t h
    obtain ⟨s1, h1, h1self, -, -⟩ := TaskQueue.update_task_status_spec s
      task_id t sp.status sp.error_message sp.result sp.now h
    obtain ⟨s2, t2, h2, h2self, h2att⟩ := ih s1 _ h1self
    refine ⟨s2, t2, ?_, h2self, ?_⟩
    · simp only [run_updates, List.foldlM_cons, h1]
      simpa [run_updates] using h2
    · rw [h2att, TaskQueue.apply_status_update_attempts]
      simp only [List.length_cons]
      omega

/-- C2, corrected (first half, which the code satisfies): a task starts at
`attempts = 0` when enqueued, and after `update_task_status` has been
applied k times to it, its stored `attempts` equals k.  (The second half of
the claim - that `attempts` never exceeds `max_attempts` - is refuted by
`c2_attempts_exceed_max_attempts`.) -/
theorem c2_attempts_equal_transition_count (store0 : TaskStore)
    (task_id : String) (task_type : TaskType) (payload : TaskPayload)
    (delay now : Timestamp) (specs : List UpdateSpec)
    (hfresh : TaskQueue.get_task_by_id store0 task_id = none) :
    (TaskQueue.create_task store0 task_id task_type payload delay now).1.attempts
      = 0 ∧
    ∃ s1 t1, run_updates
        (TaskQueue.create_task store0 task_id task_type payload delay now).2
        task_id specs = some s1 ∧
      TaskQueue.get_task_by_id s1 task_id = some t1 ∧
      t1.attempts = specs.length := by
  refine ⟨rfl, ?_⟩
  have hget : TaskQueue.get_task_by_id
      (TaskQueue.create_task store0 task_id task_type payload delay now).2
      task_id = some
      (TaskQueue.create_task store0 task_id task_type payload delay now).1 := by
    unfold TaskQueue.get_task_by_id at hfresh ⊢
    simp [TaskQueue.create_task, List.find?_append, hfresh]
  obtain ⟨s1, t1, h1, h2, h3⟩ := run_updates_attempts task_id specs _ _ hget
  exact ⟨s1, t1, h1, h2, by simpa [TaskQueue.create_task] using h3⟩

/-- C2, witness: enqueue a fresh task into an empty store and run three
transitions on it; its `attempts` counter ends at 3. -/
theorem c2_attempts_equal_transition_count_witness :
    (TaskQueue.create_task [] "w2" TaskType.send_to_crm emptyPayload 0 0).1.attempts
      = 0 ∧
    ∃ s1 t1, run_updates
        (TaskQueue.create_task [] "w2" TaskType.send_to_crm emptyPayload 0 0).2
        "w2" [⟨TaskStatus.processing, none, none, 1⟩,
          ⟨TaskStatus.pending, none, none, 2⟩,
          ⟨TaskStatus.processing, none, none, 3⟩] = some s1 ∧
      TaskQueue.get_task_by_id s1 "w2" = some t1 ∧
      t1.attempts = 3 :=
  c2_attempts_equal_transition_count [] "w2" TaskType.send_to_crm emptyPayload
    0 0 _ (by decide)

/-- C2, counterexample to the bound `attempts <= max_attempts`: the worker
performs two transitions per execution cycle, so a fresh task with
`max_attempts = 3` whose handler keeps failing reaches `attempts = 4` after
two cycles - one more than its `max_attempts`. -/
theorem c2_attempts_exceed_max_attempts :
    (freshCrmTask "t2").max_attempts = 3 ∧
    ((worker_iteration crmFail yandexIdle 5 [freshCrmTask "t2"]).bind
      (worker_iteration crmFail yandexIdle 6)).map
        (fun s => s.map Task.attempts) = some [4] := by
  constructor
  · rfl
  · decide

/-- C3, counterexample.  A `max_attempts = 3` task whose handler always
fails: the claim predicts `pending` after the first two failing handler
attempts and `failed` with `attempts = 3` after the third.  In the code the
first failing cycle leaves the task `pending` with `attempts = 2` (two
transitions per cycle), and already the second failing cycle marks it
`failed` - with `attempts = 4`, never 3. -/
theorem c3_counterexample :
    (worker_iteration crmFail yandexIdle 10 [freshCrmTask "t1"]).map
      (fun s => s.map (fun t => (t.status == TaskStatus.pending, t.attempts)))
      = some [(true, 2)] ∧
    ((worker_iteration crmFail yandexIdle 10 [freshCrmTask "t1"]).bind
      (worker_iteration crmFail yandexIdle 20)).map
      (fun s => s.map
        (fun t => (t.status == TaskStatus.failed, t.attempts, t.error_message)))
      = some [(true, 4, some "boom")] := by
  constructor
  · decide
  · decide

/-- C3, amended: when the handler of a claimed task raises, the loop body
first transitions it to `processing` (incrementing `attempts`), and then -
because the `attempts >= max_attempts - 1` check reads the incremented
counter - transitions it to `failed` with the error recorded when
`max_attempts - 1 <= attempts + 1` (for the claimed value of `attempts`),
otherwise back to `pending`; either way the failing cycle leaves
`attempts` two higher than when the task was claimed. -/
theorem c3_failing_handler_retry_rule
    (crm yandex : Task → Except String TaskResult) (now : Timestamp)
    (store : TaskStore) (t0 : Task) (e : String)
    (ht : TaskQueue.get_task_by_id store t0.task_id = some t0)
    (hd : dispatch crm yandex t0 = Except.error e) :
    ∃ s2, process_one crm yandex now store t0 = some s2 ∧
      TaskQueue.get_task_by_id s2 t0.task_id = some
        (if t0.max_attempts - 1 ≤ t0.attempts + 1 then
          { t0 with
            status := TaskStatus.failed
            attempts := t0.attempts + 2
            started_at := some now
            error_message := some e }
        else
          { t0 with
            status := TaskStatus.pending
            attempts := t0.attempts + 2
            started_at := some now }) := by
  obtain ⟨s2, hrun, hself, -, -⟩ :=
    process_one_error_spec crm yandex now store t0 t0 e ht hd
  refine ⟨s2, hrun, ?_⟩
  rw [hself]
  congr 1
  by_cases hle : t0.max_attempts - 1 ≤ t0.attempts + 1
  · rw [if_pos hle, if_pos hle]
    cases t0
    simp [TaskQueue.apply_status_update]
    omega
  · rw [if_neg hle, if_neg hle]
    cases t0
    simp [TaskQueue.apply_status_update]
    omega

/-- C3, witness: the retry rule applied to a concrete fresh task whose CRM
handler raises. -/
theorem c3_failing_handler_retry_rule_witness :
    ∃ s2, process_one crmFail yandexIdle 7 [freshCrmTask "w3"]
        (freshCrmTask "w3") = some s2 ∧
      TaskQueue.get_task_by_id s2 (freshCrmTask "w3").task_id = some
        (if (freshCrmTask "w3").max_attempts - 1 ≤
            (freshCrmTask "w3").attempts + 1 then
          { freshCrmTask "w3" with
            status := TaskStatus.failed
            attempts := (freshCrmTask "w3").attempts + 2
            started_at := some 7
            error_message := some "boom" }
        else
          { freshCrmTask "w3" with
            status := TaskStatus.pending
            attempts := (freshCrmTask "w3").attempts + 2
            started_at := some 7 }) :=
  c3_failing_handler_retry_rule crmFail yandexIdle 7 [freshCrmTask "w3"]
    (freshCrmTask "w3") "boom" (by decide) rfl

/-- C10, confirmed: a claimed task of type `retry_failed` matches neither
dispatch branch, so no handler runs (the dispatch outcome is `ok None`
whatever the two handler oracles are); the loop body transitions it to
`processing` and then straight to `completed` with a `None` result and its
`error_message` untouched. -/
theorem c10_retry_failed_completes_without_handler
    (crm yandex : Task → Except String TaskResult) (now : Timestamp)
    (store : TaskStore) (t0 : Task)
    (ht : TaskQueue.get_task_by_id store t0.task_id = some t0)
    (hty : t0.task_type = TaskType.retry_failed) :
    dispatch crm yandex t0 = Except.ok none ∧
    ∃ s2, process_one crm yandex now store t0 = some s2 ∧
      TaskQueue.get_task_by_id s2 t0.task_id = some
        { t0 with
          status := TaskStatus.completed
          attempts := t0.attempts + 2
          started_at := some now
          completed_at := some now
          result := none } := by
  have hd : dispatch crm yandex t0 = Except.ok none := by
    unfold dispatch
    rw [hty]
  refine ⟨hd, ?_⟩
  obtain ⟨s2, hrun, hself, -, -⟩ :=
    process_one_ok_spec crm yandex now store t0 t0 none ht hd
  refine ⟨s2, hrun, ?_⟩
  rw [hself]
  congr 1
  cases t0
  simp [TaskQueue.apply_status_update]
  omega

/-- C10, witness: a concrete `retry_failed` task completes with a `None`
result under handler oracles that would raise if they were ever invoked. -/
theorem c10_retry_failed_completes_without_handler_witness :
    dispatch crmFail yandexIdle retryTask = Except.ok none ∧
    ∃ s2, process_one crmFail yandexIdle 9 [retryTask] retryTask = some s2 ∧
      TaskQueue.get_task_by_id s2 retryTask.task_id = some
        { retryTask with
          status := TaskStatus.completed
          attempts := retryTask.attempts + 2
          started_at := some 9
          completed_at := some 9
          result := none } :=
  c10_retry_failed_completes_without_handler crmFail yandexIdle 9 [retryTask]
    retryTask (by decide) (by decide)

/-- C4: the claim requires the selection-and-claim step to be atomic - a
task must never be returned to two concurrent callers.  But
`get_pending_tasks` is a plain `SELECT`: it marks nothing and writes
nothing, so a second caller hitting the store in the same state receives
the same task, and the two returned sets intersect.  Concretely, both
callers receive the single due pending task `t4`. -/
theorem c4_claim_step_not_exclusive :
    (TaskQueue.get_pending_tasks [freshCrmTask "t4"] 100 5).1 =
      [freshCrmTask "t4"] ∧
    (TaskQueue.get_pending_tasks [freshCrmTask "t4"] 100 5).2 =
      [freshCrmTask "t4"] ∧
    (TaskQueue.get_pending_tasks
      ((TaskQueue.get_pending_tasks [freshCrmTask "t4"] 100 5).2) 100 5).1 =
      [freshCrmTask "t4"] ∧
    ((TaskQueue.get_pending_tasks [freshCrmTask "t4"] 100 5).1 ∩
      (TaskQueue.get_pending_tasks
        ((TaskQueue.get_pending_tasks [freshCrmTask "t4"] 100 5).2) 100 5).1)
      ≠ [] := by
  refine ⟨by decide, by decide, by decide, by decide⟩

/-- C5, confirmed: the claim query returns only rows of the store that are
`pending` and due, sorted ascending by `scheduled_at`; it returns
`min limit #eligible` of them, all of them whenever `limit` covers the
eligible count, and equal `scheduled_at` values keep their store (rowid)
order in the sorted selection. -/
theorem c5_get_pending_tasks_characterization (store : TaskStore)
    (now : Timestamp) (limit : Nat) :
    (∀ t ∈ (TaskQueue.get_pending_tasks store now limit).1,
      t ∈ store ∧ t.status = TaskStatus.pending ∧ t.scheduled_at ≤ now) ∧
    (TaskQueue.get_pending_tasks store now limit).1.Pairwise
      TaskQueue.sched_le ∧
    (TaskQueue.get_pending_tasks store now limit).1.length =
      min limit (store.filter (TaskQueue.is_ready now)).length ∧
    ((store.filter (TaskQueue.is_ready now)).length ≤ limit →
      ∀ t ∈ store, t.status = TaskStatus.pending → t.scheduled_at ≤ now →
        t ∈ (TaskQueue.get_pending_tasks store now limit).1) ∧
    (∀ a b : Task, a.scheduled_at = b.scheduled_at →
      List.Sublist [a, b] (store.filter (TaskQueue.is_ready now)) →
      List.Sublist [a, b] ((store.filter (TaskQueue.is_ready now)).insertionSort
        TaskQueue.sched_le)) := by
  refine ⟨mem_get_pending_tasks store now limit, ?_, ?_, ?_, ?_⟩
  · have hs : ((store.filter (TaskQueue.is_ready now)).insertionSort
        TaskQueue.sched_le).Pairwise TaskQueue.sched_le :=
      List.sorted_insertionSort TaskQueue.sched_le _
    exact hs.sublist (List.take_sublist _ _)
  · simp [TaskQueue.get_pending_tasks]
  · intro hlen t htmem hpend hdue
    have hready : TaskQueue.is_ready now t = true := by
      unfold TaskQueue.is_ready
      rw [Bool.and_eq_true_iff]
      exact ⟨by simp [hpend], decide_eq_true hdue⟩
    have hfil : t ∈ store.filter (TaskQueue.is_ready now) :=
      List.mem_filter.mpr ⟨htmem, hready⟩
    have hins : t ∈ (store.filter (TaskQueue.is_ready now)).insertionSort
        TaskQueue.sched_le := (List.mem_insertionSort _).mpr hfil
    have hfull : ((store.filter (TaskQueue.is_ready now)).insertionSort
        TaskQueue.sched_le).take limit =
        (store.filter (TaskQueue.is_ready now)).insertionSort
          TaskQueue.sched_le :=
      List.take_of_length_le (by simpa using hlen)
    show t ∈ ((store.filter (TaskQueue.is_ready now)).insertionSort
      TaskQueue.sched_le).take limit
    rw [hfull]
    exact hins
  · intro a b hab hsub
    exact List.pair_sublist_insertionSort (le_of_eq hab) hsub

/-- C5, witness: of three tasks scheduled at 999 (now minus 1s), 998 (now
minus 2s) and 1010 (now plus 10s) around clock 1000, the claim query
returns exactly the two due ones, earliest first. -/
theorem c5_get_pending_tasks_characterization_witness :
    (TaskQueue.get_pending_tasks [taskMinus1, taskMinus2, taskPlus10] 1000
      5).1 = [taskMinus2, taskMinus1] ∧
    (taskMinus2 ∈ [taskMinus1, taskMinus2, taskPlus10] ∧
      taskMinus2.status = TaskStatus.pending ∧
      taskMinus2.scheduled_at ≤ 1000) :=
  ⟨by decide,
    (c5_get_pending_tasks_characterization [taskMinus1, taskMinus2, taskPlus10]
      1000 5).1 taskMinus2 (by decide)⟩

/-- C9, confirmed: the claim query is a pure read - the store it leaves
behind is the store it was given (every task's status, attempts and
timestamps included), and every task it returns is still a `pending` row of
that unchanged store; the move to `processing` happens only in the separate
`update_task_status` call the loop body issues afterwards. -/
theorem c9_claim_is_pure_read (store : TaskStore) (now : Timestamp)
    (limit : Nat) :
    (TaskQueue.get_pending_tasks store now limit).2 = store ∧
    ∀ t ∈ (TaskQueue.get_pending_tasks store now limit).1,
      t ∈ store ∧ t.status = TaskStatus.pending := by
  refine ⟨rfl, ?_⟩
  intro t ht
  obtain ⟨h1, h2, -⟩ := mem_get_pending_tasks store now limit t ht
  exact ⟨h1, h2⟩

/-- C9, witness: on a concrete store the claim step returns the store
unchanged, and a returned task is a pending row of it. -/
theorem c9_claim_is_pure_read_witness :
    (TaskQueue.get_pending_tasks [doneTask, freshCrmTask "w9"] 50 5).2 =
      [doneTask, freshCrmTask "w9"] ∧
    (freshCrmTask "w9" ∈ [doneTask, freshCrmTask "w9"] ∧
      (freshCrmTask "w9").status = TaskStatus.pending) :=
  ⟨(c9_claim_is_pure_read [doneTask, freshCrmTask "w9"] 50 5).1,
    (c9_claim_is_pure_read [doneTask, freshCrmTask "w9"] 50 5).2
      (freshCrmTask "w9") (by decide)⟩

/-- A run of `save_event` calls appends the built rows in call order. -/
theorem append_all_eq (rs : List AppendRequest) :
    ∀ store : EventStore, append_all store rs = store ++ rs.map mk_event := by
  induction rs with
  | nil => intro store; simp [append_all]
  | cons r rs ih =>
    intro store
    have step : append_all store (r :: rs) =
        append_all (store ++ [mk_event r]) rs := rfl
    rw [step, ih]
    simp

/-- C6, confirmed: when the clock stamps nondecreasing `created_at` values
(so the log is chronological), appending events via `save_event` and then
listing by aggregate returns exactly that aggregate's appended events in
append order; an aggregate with no events gets the empty sequence. -/
theorem c6_append_order_invariant (store : EventStore)
    (rs : List AppendRequest) (aggregate_id : String)
    (hstore : ∀ e ∈ store, (e.aggregate_id == aggregate_id) = false)
    (hchron : (store ++ rs.map mk_event).Pairwise EventStore.created_le) :
    EventStore.get_events_by_aggregate (append_all store rs) aggregate_id =
      (rs.filter (fun r => r.aggregate_id == aggregate_id)).map mk_event ∧
    ((∀ r ∈ rs, (r.aggregate_id == aggregate_id) = false) →
      EventStore.get_events_by_aggregate (append_all store rs) aggregate_id
        = []) := by
  have hstorefil :
      store.filter (fun e => e.aggregate_id == aggregate_id) = [] := by
    rw [List.filter_eq_nil_iff]
    intro a ha
    simp [hstore a ha]
  have hmain : EventStore.get_events_by_aggregate (append_all store rs)
      aggregate_id =
      (rs.filter (fun r => r.aggregate_id == aggregate_id)).map mk_event := by
    rw [append_all_eq]
    unfold EventStore.get_events_by_aggregate
    rw [List.filter_append, hstorefil, List.nil_append]
    have hsub : List.Sublist
        ((rs.map mk_event).filter (fun e => e.aggregate_id == aggregate_id))
        (store ++ rs.map mk_event) :=
      (List.filter_sublist _).trans (List.sublist_append_right store _)
    have hsorted : List.Sorted EventStore.created_le
        ((rs.map mk_event).filter
          (fun e => e.aggregate_id == aggregate_id)) :=
      hchron.sublist hsub
    rw [List.Sorted.insertionSort_eq hsorted, List.filter_map]
    rfl
  refine ⟨hmain, ?_⟩
  intro hnone
  rw [hmain]
  have hfil : rs.filter (fun r => r.aggregate_id == aggregate_id) = [] := by
    rw [List.filter_eq_nil_iff]
    intro a ha
    simp [hnone a ha]
  rw [hfil]
  rfl

/-- C6, witness: three appends (two for aggregate `lead_abc1`, one for
another aggregate, at clock readings 10, 11, 12) listed by `lead_abc1`
yield exactly its two events in append order. -/
theorem c6_append_order_invariant_witness :
    EventStore.get_events_by_aggregate (append_all [] [reqA1, reqB1, reqA2])
      "lead_abc1" =
      ([reqA1, reqB1, reqA2].filter
        (fun r => r.aggregate_id == "lead_abc1")).map mk_event ∧
    ([reqA1, reqB1, reqA2].filter
        (fun r => r.aggregate_id == "lead_abc1")).map mk_event =
      [mk_event reqA1, mk_event reqA2] :=
  ⟨(c6_append_order_invariant [] [reqA1, reqB1, reqA2] "lead_abc1"
      (by decide) (by decide)).1, by decide⟩

namespace LeadService

theorem apply_lead_update_basic (lead : Lead) (status : String)
    (crm_id : Option String) (payment_data : Option PaymentData)
    (now : Timestamp) :
    (apply_lead_update lead status crm_id payment_data now).lead_id =
      lead.lead_id ∧
    (apply_lead_update lead status crm_id payment_data now).status = status ∧
    (apply_lead_update lead status crm_id payment_data now).updated_at
      = now := by
  unfold apply_lead_update
  cases payment_data with
  | none => by_cases h : str_truthy crm_id <;> simp [h]
  | some pd =>
    by_cases h1 : str_truthy crm_id <;> by_cases h2 : status == "paid" <;>
      simp [h1, h2]

theorem apply_lead_update_payment (lead : Lead) (status : String)
    (crm_id : Option String) (pd : PaymentData) (now : Timestamp)
    (h : status = "paid") :
    (apply_lead_update lead status crm_id (some pd) now).payment_amount =
      pd.amount ∧
    (apply_lead_update lead status crm_id (some pd) now).payment_date =
      some (pd.payment_date.getD now) := by
  unfold apply_lead_update
  by_cases h1 : str_truthy crm_id <;> simp [h1, h]

end LeadService

/-- C7, confirmed: `update_lead_status` on an unknown `lead_id` reports the
failure (`None`, surfaced as a 404 by the route) and leaves the lead table
exactly as it was; on a stored lead it returns an updated snapshot with the
new `status` and `updated_at = now` that is stored back, and when the new
status is `"paid"` and payment data is supplied it copies the supplied
`amount` and uses the supplied payment date or, in its absence, the current
clock. -/
theorem c7_update_lead_status_spec (store : LeadStore)
    (lead_id status : String) (crm_id : Option String)
    (payment_data : Option PaymentData) (now : Timestamp) :
    (store.find? (fun l => l.lead_id == lead_id) = none →
      LeadService.update_lead_status store lead_id status crm_id payment_data
        now = (none, store)) ∧
    (∀ lead, store.find? (fun l => l.lead_id == lead_id) = some lead →
      ∃ lead1,
        (LeadService.update_lead_status store lead_id status crm_id
          payment_data now).1 = some lead1 ∧
        lead1.lead_id = lead.lead_id ∧
        lead1.status = status ∧
        lead1.updated_at = now ∧
        lead1 ∈ (LeadService.update_lead_status store lead_id status crm_id
          payment_data now).2 ∧
        ∀ pd, payment_data = some pd → status = "paid" →
          lead1.payment_amount = pd.amount ∧
          lead1.payment_date = some (pd.payment_date.getD now)) := by
  constructor
  · intro h
    unfold LeadService.update_lead_status
    rw [h]
  · intro lead h
    refine ⟨LeadService.apply_lead_update lead status crm_id payment_data now,
      ?_, (LeadService.apply_lead_update_basic lead status crm_id payment_data
        now).1,
      (LeadService.apply_lead_update_basic lead status crm_id payment_data
        now).2.1,
      (LeadService.apply_lead_update_basic lead status crm_id payment_data
        now).2.2, ?_, ?_⟩
    · unfold LeadService.update_lead_status
      rw [h]
    · simp only [LeadService.update_lead_status, h]
      exact mem_update_first_of_find? (fun l => l.lead_id == lead_id)
        (fun l => LeadService.apply_lead_update l status crm_id payment_data
          now) store lead h
    · intro pd hpd hpaid
      subst hpd
      exact LeadService.apply_lead_update_payment lead status crm_id pd now
        hpaid

/-- C7, witness: on the stored lead `lead_1`, marking it `"paid"` with a
supplied amount of 200 and no supplied date at clock 5 stores amount 200
and date 5; on the unknown id `nope` the operation fails and the table is
untouched. -/
theorem c7_update_lead_status_spec_witness :
    (LeadService.update_lead_status [leadNew] "nope" "paid" none
      (some paymentTwoHundred) 5 = (none, [leadNew])) ∧
    ∃ lead1,
      (LeadService.update_lead_status [leadNew] "lead_1" "paid" none
        (some paymentTwoHundred) 5).1 = some lead1 ∧
      lead1.lead_id = leadNew.lead_id ∧
      lead1.status = "paid" ∧
      lead1.updated_at = 5 ∧
      lead1 ∈ (LeadService.update_lead_status [leadNew] "lead_1" "paid" none
        (some paymentTwoHundred) 5).2 ∧
      lead1.payment_amount = paymentTwoHundred.amount ∧
      lead1.payment_date = some (paymentTwoHundred.payment_date.getD 5) := by
  constructor
  · exact (c7_update_lead_status_spec [leadNew] "nope" "paid" none
      (some paymentTwoHundred) 5).1 (by decide)
  · obtain ⟨lead1, h1, h2, h3, h4, h5, h6⟩ :=
      (c7_update_lead_status_spec [leadNew] "lead_1" "paid" none
        (some paymentTwoHundred) 5).2 leadNew (by decide)
    obtain ⟨h7, h8⟩ := h6 paymentTwoHundred rfl rfl
    exact ⟨lead1, h1, h2, h3, h4, h5, h7, h8⟩

/-- Rewriting the first matching row with a key-preserving update does not
change how many rows match the key. -/
theorem length_filter_update_first {α : Type} (p : α → Bool) (f : α → α)
    (hf : ∀ x, p (f x) = p x) (l : List α) :
    ((update_first p f l).filter p).length = (l.filter p).length := by
  induction l with
  | nil => rfl
  | cons x xs ih =>
    cases hx : p x
    · simp [update_first, hx, ih]
    · simp [update_first, hx, hf x]

/-- C8, confirmed: both campaign-stat operations are insert-or-increment
upserts on the `campaign_id` key.  Starting from a store with no row for
the campaign: `increment_lead_count` creates the single row with
`total_leads = 1`, and a second call yields `total_leads = 2` still with
exactly one row; `increment_payment_count` with `amt1` creates the row with
`total_payments = 1` and `total_revenue = amt1`, and a second call with
`amt2` yields `total_payments = 2` and `total_revenue = amt1 + amt2`, still
with exactly one row. -/
theorem c8_campaign_upserts (store : StatStore) (campaign_id : String)
    (now1 now2 : Timestamp) (amt1 amt2 : Rat)
    (hfresh : store.find? (fun s => s.campaign_id == campaign_id) = none) :
    (CampaignService.increment_lead_count store campaign_id
      now1).1.total_leads = 1 ∧
    CampaignService.count_rows
      (CampaignService.increment_lead_count store campaign_id now1).2
      campaign_id = 1 ∧
    (CampaignService.increment_lead_count
      (CampaignService.increment_lead_count store campaign_id now1).2
      campaign_id now2).1.total_leads = 2 ∧
    CampaignService.count_rows
      (CampaignService.increment_lead_count
        (CampaignService.increment_lead_count store campaign_id now1).2
        campaign_id now2).2 campaign_id = 1 ∧
    (CampaignService.increment_payment_count store campaign_id amt1
      now1).1.total_payments = 1 ∧
    (CampaignService.increment_payment_count store campaign_id amt1
      now1).1.total_revenue = amt1 ∧
    (CampaignService.increment_payment_count
      (CampaignService.increment_payment_count store campaign_id amt1 now1).2
      campaign_id amt2 now2).1.total_payments = 2 ∧
    (CampaignService.increment_payment_count
      (CampaignService.increment_payment_count store campaign_id amt1 now1).2
      campaign_id amt2 now2).1.total_revenue = amt1 + amt2 ∧
    CampaignService.count_rows
      (CampaignService.increment_payment_count
        (CampaignService.increment_payment_count store campaign_id amt1
          now1).2 campaign_id amt2 now2).2 campaign_id = 1 := by
  have hfilter0 : store.filter (fun s => s.campaign_id == campaign_id)
      = [] := by
    rw [List.filter_eq_nil_iff]
    intro a ha
    simp [List.find?_eq_none.mp hfresh a ha]
  have el : CampaignService.increment_lead_count store campaign_id now1 =
      (fresh_lead_stat campaign_id now1,
       store ++ [fresh_lead_stat campaign_id now1]) := by
    unfold CampaignService.increment_lead_count fresh_lead_stat
    rw [hfresh]
  have elf : (CampaignService.increment_lead_count store campaign_id now1).1
      = fresh_lead_stat campaign_id now1 := by rw [el]
  have els : (CampaignService.increment_lead_count store campaign_id now1).2
      = store ++ [fresh_lead_stat campaign_id now1] := by rw [el]
  have hfindl : (store ++ [fresh_lead_stat campaign_id now1]).find?
      (fun s => s.campaign_id == campaign_id) =
      some (fresh_lead_stat campaign_id now1) := by
    rw [List.find?_append, hfresh]
    simp [fresh_lead_stat]
  have el2 : CampaignService.increment_lead_count
      (store ++ [fresh_lead_stat campaign_id now1]) campaign_id now2 =
      ({ fresh_lead_stat campaign_id now1 with
          total_leads := (fresh_lead_stat campaign_id now1).total_leads + 1
          last_lead_at := some now2
          updated_at := now2 },
        update_first (fun s => s.campaign_id == campaign_id)
          (fun s => { s with
            total_leads := s.total_leads + 1
            last_lead_at := some now2
            updated_at := now2 })
          (store ++ [fresh_lead_stat campaign_id now1])) := by
    unfold CampaignService.increment_lead_count
    rw [hfindl]
  have el2f : (CampaignService.increment_lead_count
      (store ++ [fresh_lead_stat campaign_id now1]) campaign_id now2).1 =
      { fresh_lead_stat campaign_id now1 with
        total_leads := (fresh_lead_stat campaign_id now1).total_leads + 1
        last_lead_at := some now2
        updated_at := now2 } := by rw [el2]
  have el2s : (CampaignService.increment_lead_count
      (store ++ [fresh_lead_stat campaign_id now1]) campaign_id now2).2 =
      update_first (fun s => s.campaign_id == campaign_id)
        (fun s => { s with
          total_leads := s.total_leads + 1
          last_lead_at := some now2
          updated_at := now2 })
        (store ++ [fresh_lead_stat campaign_id now1]) := by rw [el2]
  have ep : CampaignService.increment_payment_count store campaign_id amt1
      now1 = (fresh_payment_stat campaign_id amt1 now1,
       store ++ [fresh_payment_stat campaign_id amt1 now1]) := by
    unfold CampaignService.increment_payment_count fresh_payment_stat
    rw [hfresh]
  have epf : (CampaignService.increment_payment_count store campaign_id amt1
      now1).1 = fresh_payment_stat campaign_id amt1 now1 := by rw [ep]
  have eps : (CampaignService.increment_payment_count store campaign_id amt1
      now1).2 = store ++ [fresh_payment_stat campaign_id amt1 now1] := by
    rw [ep]
  have hfindp : (store ++ [fresh_payment_stat campaign_id amt1 now1]).find?
      (fun s => s.campaign_id == campaign_id) =
      some (fresh_payment_stat campaign_id amt1 now1) := by
    rw [List.find?_append, hfresh]
    simp [fresh_payment_stat]
  have ep2 : CampaignService.increment_payment_count
      (store ++ [fresh_payment_stat campaign_id amt1 now1]) campaign_id amt2
      now2 =
      ({ fresh_payment_stat campaign_id amt1 now1 with
          total_payments :=
            (fresh_payment_stat campaign_id amt1 now1).total_payments + 1
          total_revenue :=
            (fresh_payment_stat campaign_id amt1 now1).total_revenue + amt2
          last_payment_at := some now2
          updated_at := now2 },
        update_first (fun s => s.campaign_id == campaign_id)
          (fun s => { s with
            total_payments := s.total_payments + 1
            total_revenue := s.total_revenue + amt2
            last_payment_at := some now2
            updated_at := now2 })
          (store ++ [fresh_payment_stat campaign_id amt1 now1])) := by
    unfold CampaignService.increment_payment_count
    rw [hfindp]
  have ep2f : (CampaignService.increment_payment_count
      (store ++ [fresh_payment_stat campaign_id amt1 now1]) campaign_id amt2
      now2).1 =
      { fresh_payment_stat campaign_id amt1 now1 with
        total_payments :=
          (fresh_payment_stat campaign_id amt1 now1).total_payments + 1
        total_revenue :=
          (fresh_payment_stat campaign_id amt1 now1).total_revenue + amt2
        last_payment_at := some now2
        updated_at := now2 } := by rw [ep2]
  have ep2s : (CampaignService.increment_payment_count
      (store ++ [fresh_payment_stat campaign_id amt1 now1]) campaign_id amt2
      now2).2 =
      update_first (fun s => s.campaign_id == campaign_id)
        (fun s => { s with
          total_payments := s.total_payments + 1
          total_revenue := s.total_revenue + amt2
          last_payment_at := some now2
          updated_at := now2 })
        (store ++ [fresh_payment_stat campaign_id amt1 now1]) := by rw [ep2]
  refine ⟨?_, ?_, ?_, ?_, ?_, ?_, ?_, ?_, ?_⟩
  · rw [elf]
    rfl
  · rw [els]
    unfold CampaignService.count_rows
    rw [List.filter_append, hfilter0, List.nil_append]
    simp [fresh_lead_stat]
  · rw [els, el2f]
    simp [fresh_lead_stat]
  · rw [els, el2s]
    unfold CampaignService.count_rows
    have hlen := length_filter_update_first
      (fun s : CampaignStat => s.campaign_id == campaign_id)
      (fun s : CampaignStat => { s with
        total_leads := s.total_leads + 1
        last_lead_at := some now2
        updated_at := now2 })
      (fun _ => rfl)
      (store ++ [fresh_lead_stat campaign_id now1])
    rw [hlen, List.filter_append, hfilter0, List.nil_append]
    simp [fresh_lead_stat]
  · rw [epf]
    rfl
  · rw [epf]
    rfl
  · rw [eps, ep2f]
    simp [fresh_payment_stat]
  · rw [eps, ep2f]
    simp [fresh_payment_stat]
  · rw [eps, ep2s]
    unfold CampaignService.count_rows
    have hlen := length_filter_update_first
      (fun s : CampaignStat => s.campaign_id == campaign_id)
      (fun s : CampaignStat => { s with
        total_payments := s.total_payments + 1
        total_revenue := s.total_revenue + amt2
        last_payment_at := some now2
        updated_at := now2 })
      (fun _ => rfl)
      (store ++ [fresh_payment_stat campaign_id amt1 now1])
    rw [hlen, List.filter_append, hfilter0, List.nil_append]
    simp [fresh_payment_stat]

/-- C8, witness: on a fresh campaign, a payment of 100 then one of 50 yield
counters (1, 100) then (2, 150), and a single stat row throughout; the lead
counter goes 1 then 2 on one row. -/
theorem c8_campaign_upserts_witness :
    (CampaignService.increment_lead_count [] "camp1" 1).1.total_leads = 1 ∧
    (CampaignService.increment_lead_count
      (CampaignService.increment_lead_count [] "camp1" 1).2 "camp1"
      2).1.total_leads = 2 ∧
    (CampaignService.increment_payment_count [] "camp1" 100
      1).1.total_payments = 1 ∧
    (CampaignService.increment_payment_count [] "camp1" 100
      1).1.total_revenue = 100 ∧
    (CampaignService.increment_payment_count
      (CampaignService.increment_payment_count [] "camp1" 100 1).2 "camp1" 50
      2).1.total_payments = 2 ∧
    (CampaignService.increment_payment_count
      (CampaignService.increment_payment_count [] "camp1" 100 1).2 "camp1" 50
      2).1.total_revenue = 150 ∧
    CampaignService.count_rows
      (CampaignService.increment_payment_count
        (CampaignService.increment_payment_count [] "camp1" 100 1).2 "camp1"
        50 2).2 "camp1" = 1 := by
  obtain ⟨l1, -, l3, -, p1, p2, p3, p4, p5⟩ :=
    c8_campaign_upserts [] "camp1" 1 2 100 50 rfl
  exact ⟨l1, l3, p1, p2, p3, p4.trans (by norm_num), p5⟩

end DataGator
